import Mathlib

/-!
Shallow embedding of `examples/gallery/demos/VTKWarp.ipynb`.

The notebook builds a 101 x 101 coordinate grid, samples a trigonometric
scalar field over it, feeds the field to a pyvista mesh, warps the mesh by
the scalar data, and wires a `Player` widget to a callback that recomputes
the field and resynchronizes the rendering.  Floating-point arrays are
modelled as real-valued functions; numpy arrays of shape (101, 101) become
functions of the row index `j` and column index `i`; pyvista meshes become
records holding their points and their named point arrays; the mutation
performed by each notebook statement becomes explicit state passing on a
record type, together with an event log that records the order in which the
operations happen.
-/

noncomputable section

namespace VTKWarp

/-- `alpha = 2` from the notebook (a Python integer, used both as the
divisor in `ys/alpha` and as the exponent in `**alpha`). -/
def alpha : ℤ := 2

/-- Number of samples of each coordinate axis: `np.linspace(-4, 4, 101)`. -/
def npts : ℕ := 101

/-- `xvals = np.linspace(-4, 4, 101)`: 101 evenly spaced values from -4 to 4,
with step (4 - (-4)) / (101 - 1) = 8/100. -/
def xvals (i : ℕ) : ℝ := -4 + 8 * i / 100

/-- `yvals = np.linspace(-4, 4, 101)`. -/
def yvals (j : ℕ) : ℝ := -4 + 8 * j / 100

/-- `xs, ys = np.meshgrid(xvals, yvals)`, x component: `xs[j, i] = xvals[i]`. -/
def xs0 (_j i : ℕ) : ℝ := xvals i

/-- `xs, ys = np.meshgrid(xvals, yvals)`, y component: `ys[j, i] = yvals[j]`. -/
def ys0 (j _i : ℕ) : ℝ := yvals j

/-- `def time_function(time): return np.sin(((ys/alpha)**alpha+time)*xs)`.
The grid arrays `xs`, `ys` are read from the enclosing scope; they are
passed here explicitly so that the state-passing semantics below can supply
the arrays held in the current program state. -/
def time_function (xsA ysA : ℕ → ℕ → ℝ) (time : ℝ) (j i : ℕ) : ℝ :=
  Real.sin (((ysA j i / (alpha : ℝ)) ^ alpha + time) * xsA j i)

/-- `.flatten(order='F')` on a (101, 101) array `f j i` (Fortran order:
the first index varies fastest), as a function of the flat position. -/
def flattenF (f : ℕ → ℕ → ℝ) (k : ℕ) : ℝ := f (k % npts) (k / npts)

/-- A pyvista mesh, reduced to what the notebook uses: its points and its
named point arrays (`point_arrays`); an array that was never appended is
absent (`none`). -/
structure Mesh where
  points : ℕ → ℝ × ℝ × ℝ
  arrays : String → Option (ℕ → ℝ)

/-- `m.point_arrays.append(data, name)`: store `data` under `name`
(overwriting any previous array of that name). -/
def Mesh.append (m : Mesh) (d : ℕ → ℝ) (name : String) : Mesh :=
  { m with arrays := fun n => if n = name then some d else m.arrays n }

/-- The points of a warp of mesh `m` by the scalar array `s` with the given
factor: each point is displaced along the flat grid's surface normal
(0, 0, 1) by `factor * s k`. -/
def warpPoints (m : Mesh) (s : ℕ → ℝ) (factor : ℝ) : ℕ → ℝ × ℝ × ℝ :=
  fun k => ((m.points k).1, (m.points k).2.1, (m.points k).2.2 + factor * s k)

/-- Model of pyvista's `warp_by_scalar` as used on this flat `UniformGrid`:
displace every point along the surface normal (0, 0, 1) by `factor` times
the active `'scalars'` array; if no scalar array is present the call cannot
proceed (`none`).  The factor defaults to 1 in pyvista; callers below pass
it explicitly. -/
def Mesh.warp_by_scalar (m : Mesh) (factor : ℝ) : Option Mesh :=
  (m.arrays "scalars").map fun s => { m with points := warpPoints m s factor }

/-- Which of the two meshes an event concerns. -/
inductive MeshId
  | refMesh
  | warpedMesh

/-- Which of the two plotters / panes an event concerns. -/
inductive PlotId
  | refPlot
  | warpPlot

/-- Events logged by the operations of the notebook, in the order the
statements execute. -/
inductive Ev
  | makeGrid
  | makeMesh (m : MeshId)
  | evalField (t : ℝ)
  | appendArray (m : MeshId) (name : String)
  | warpCall (factor : ℝ)
  | assignPoints (m : MeshId)
  | render (p : PlotId)
  | sync

/-- The whole mutable state the notebook's code touches: the grid arrays,
the two meshes, and a log of the events so far. -/
structure NBState where
  xsA : ℕ → ℕ → ℝ
  ysA : ℕ → ℕ → ℝ
  mesh_ref : Mesh
  mesh_warped : Mesh
  log : List Ev

/-- `pv.UniformGrid((101,101,1), (dx,dy,1), (-4,-4,0))`: point `k` has
coordinates `origin + index * spacing`, where the x index varies fastest
(`k % 101`), then the y index (`k / 101 % 101`), then the z index. -/
def mesh_ref_points (k : ℕ) : ℝ × ℝ × ℝ :=
  (xvals 0 + (k % npts) * (xvals 1 - xvals 0),
   yvals 0 + (k / npts % npts) * (yvals 1 - yvals 0),
   0 + (k / (npts * npts)) * 1)

/-- `mesh_ref` as created, before any point array is appended. -/
def mesh_ref_init : Mesh :=
  { points := mesh_ref_points, arrays := fun _ => none }

/-- `time_function(0).flatten(order='F')`: the scalar data at time 0. -/
def data0 : ℕ → ℝ := flattenF (time_function xs0 ys0 0)

/-- `mesh_ref` after `mesh_ref.point_arrays.append(time_function(0).flatten(order='F'), 'scalars')`. -/
def mesh_ref1 : Mesh := mesh_ref_init.append data0 "scalars"

/-- `mesh_warped = mesh_ref.warp_by_scalar()` (pyvista default factor 1). -/
def setup_warped : Option Mesh := mesh_ref1.warp_by_scalar 1

/-- The events of the setup cells, in source order: build the grid, build
`mesh_ref`, evaluate the field at time 0, append it as `'scalars'`, display
the reference plotter (`pn.panel(pl_ref.ren_win)`), warp to create
`mesh_warped`, and display the warp plotter (`vtkpan`). -/
def setupTrace : List Ev :=
  [Ev.makeGrid, Ev.makeMesh MeshId.refMesh, Ev.evalField 0,
   Ev.appendArray MeshId.refMesh "scalars", Ev.render PlotId.refPlot,
   Ev.warpCall 1, Ev.makeMesh MeshId.warpedMesh, Ev.render PlotId.warpPlot]

/-- The program state after the two setup cells have run. -/
def initState : NBState :=
  { xsA := xs0
    ysA := ys0
    mesh_ref := mesh_ref1
    mesh_warped := setup_warped.getD mesh_ref1
    log := setupTrace }

/-- `frame = pn.widgets.Player(value=0, start=0, end=50, interval=100,
loop_policy="reflect")`. -/
structure Player where
  value : ℤ
  startVal : ℤ
  endVal : ℤ
  interval : ℕ
  loop_policy : String

/-- The player widget of the notebook. -/
def frame_player : Player :=
  { value := 0, startVal := 0, endVal := 50, interval := 100,
    loop_policy := "reflect" }

/-- The events of one invocation of the callback, in source order. -/
def callbackTrace (t : ℝ) : List Ev :=
  [Ev.evalField t, Ev.appendArray MeshId.refMesh "scalars",
   Ev.appendArray MeshId.warpedMesh "scalars", Ev.warpCall (1/2),
   Ev.assignPoints MeshId.warpedMesh, Ev.sync]

/-- `update_3d_warp(frame)`: `time = frame/5`;
`data = time_function(time).flatten(order='F')`;
`mesh_ref.point_arrays.append(data, 'scalars')`;
`mesh_warped.point_arrays.append(data, 'scalars')`;
`mesh_warped.points = mesh_ref.warp_by_scalar(factor=0.5).points`;
`vtkpan.synchronize()`. -/
def update_3d_warp (frame : ℝ) (s : NBState) : Option NBState :=
  let time := frame / 5
  let data := flattenF (time_function s.xsA s.ysA time)
  let ref1 := s.mesh_ref.append data "scalars"
  let warped1 := s.mesh_warped.append data "scalars"
  (ref1.warp_by_scalar (1/2)).map fun fresh =>
    { s with
      mesh_ref := ref1
      mesh_warped := { warped1 with points := fresh.points }
      log := s.log ++ callbackTrace time }

/-- Appending a point array does not move the points. -/
lemma append_points (m : Mesh) (d : ℕ → ℝ) (name : String) :
    (m.append d name).points = m.points := rfl

/-- After an append, looking up the appended name yields the data. -/
lemma append_arrays_self (m : Mesh) (d : ℕ → ℝ) (name : String) :
    (m.append d name).arrays name = some d := by
  simp [Mesh.append]

/-- Warping right after appending `'scalars'` always succeeds and displaces
the points by `factor` times the appended data. -/
lemma warp_append (m : Mesh) (d : ℕ → ℝ) (c : ℝ) :
    (m.append d "scalars").warp_by_scalar c
      = some { m.append d "scalars" with
               points := warpPoints (m.append d "scalars") d c } := by
  simp [Mesh.warp_by_scalar, append_arrays_self]

/-- The callback always succeeds and its result is this explicit state. -/
lemma update_3d_warp_eq (frame : ℝ) (s : NBState) :
    update_3d_warp frame s = some
      { s with
        mesh_ref :=
          s.mesh_ref.append (flattenF (time_function s.xsA s.ysA (frame / 5))) "scalars"
        mesh_warped :=
          { s.mesh_warped.append (flattenF (time_function s.xsA s.ysA (frame / 5))) "scalars" with
            points := warpPoints
              (s.mesh_ref.append (flattenF (time_function s.xsA s.ysA (frame / 5))) "scalars")
              (flattenF (time_function s.xsA s.ysA (frame / 5))) (1 / 2) }
        log := s.log ++ callbackTrace (frame / 5) } := by
  simp [update_3d_warp, warp_append]

/-- The setup warp succeeds: `mesh_ref` got its `'scalars'` array first. -/
lemma setup_warped_eq :
    setup_warped = some { mesh_ref1 with points := warpPoints mesh_ref1 data0 1 } :=
  warp_append mesh_ref_init data0 1

/-- The initially created warped mesh, explicitly. -/
lemma initState_mesh_warped :
    initState.mesh_warped = { mesh_ref1 with points := warpPoints mesh_ref1 data0 1 } := by
  show setup_warped.getD mesh_ref1 = _
  rw [setup_warped_eq]
  rfl

/-- The field formula as the specification words it: the value at the grid
point with coordinates `(x, y)` at time `t` is `sin(((y/alpha)^alpha + t) * x)`
with `alpha = 2`. -/
def specField (t x y : ℝ) : ℝ := Real.sin (((y / 2) ^ (2 : ℕ) + t) * x)

/-- C1: the synthetic scalar field generated by `time_function` over the
meshgrid of `xvals` and `yvals` agrees, at every time `t` and every grid
index, with the closed-form trigonometric function
`sin(((y/alpha)^alpha + t) * x)` with `alpha = 2`, evaluated at the grid
point's coordinates. -/
theorem time_function_matches_closed_form (t : ℝ) (j i : ℕ) :
    time_function xs0 ys0 t j i = specField t (xvals i) (yvals j) := by
  simp [time_function, specField, xs0, ys0, alpha, zpow_two, pow_two]

/-- Division with an explicit divisor-is-zero check, to express that the
notebook's `ys/alpha` is well defined. -/
def checkedDiv (a b : ℝ) : Option ℝ := if b = 0 then none else some (a / b)

/-- `time_function` with the division step made fallible: it fails exactly
when the divisor `alpha` is zero. -/
def time_function_checked (t : ℝ) (j i : ℕ) : Option ℝ :=
  (checkedDiv (ys0 j i) ((alpha : ℝ))).map fun q =>
    Real.sin ((q ^ alpha + t) * xs0 j i)

/-- C6: the scalar field computation is total — for every real time and
every grid index the checked evaluation succeeds (the divisor `alpha = 2`
is nonzero, and power, addition, multiplication and sine are total), and
returns exactly the field value. -/
theorem time_function_total_checked (t : ℝ) (j i : ℕ) :
    time_function_checked t j i = some (time_function xs0 ys0 t j i) := by
  have h2 : ((alpha : ℝ)) ≠ 0 := by norm_num [alpha]
  simp [time_function_checked, checkedDiv, h2, time_function]

/-- C10: every generated scalar field value is the sine of a real number,
hence lies in [-1, 1]; the same holds for the flattened data handed to the
warp routine, at every time and every position. -/
theorem field_values_bounded (t : ℝ) (j i k : ℕ) :
    time_function xs0 ys0 t j i ∈ Set.Icc (-1 : ℝ) 1 ∧
    flattenF (time_function xs0 ys0 t) k ∈ Set.Icc (-1 : ℝ) 1 := by
  refine ⟨Set.mem_Icc.mpr ⟨?_, ?_⟩, Set.mem_Icc.mpr ⟨?_, ?_⟩⟩ <;>
    first
      | exact Real.neg_one_le_sin _
      | exact Real.sin_le_one _

/-- C2: on every change of the player value the callback computes the field
at time `frame/5`, writes the flattened data into the `'scalars'` point
arrays of the reference mesh and then of the warped mesh, replaces the
warped mesh's points with the points of a fresh factor-0.5 warp of the
reference mesh, and synchronizes — the event log extends in exactly that
order. -/
theorem update_3d_warp_sequence (frame : ℝ) (s : NBState) :
    ∃ data s' fresh,
      data = flattenF (time_function s.xsA s.ysA (frame / 5)) ∧
      update_3d_warp frame s = some s' ∧
      s'.mesh_ref = s.mesh_ref.append data "scalars" ∧
      s'.mesh_warped.arrays = (s.mesh_warped.append data "scalars").arrays ∧
      (s.mesh_ref.append data "scalars").warp_by_scalar (1 / 2) = some fresh ∧
      s'.mesh_warped.points = fresh.points ∧
      s'.log = s.log ++ callbackTrace (frame / 5) :=
  ⟨_, _, _, rfl, update_3d_warp_eq frame s, rfl, rfl, warp_append _ _ _, rfl, rfl⟩

/-- C9: after every invocation of the callback the reference mesh and the
warped mesh hold the identical `'scalars'` point array — the very data
computed at that frame. -/
theorem meshes_share_scalars_after_update (frame : ℝ) (s : NBState) :
    ∃ s', update_3d_warp frame s = some s' ∧
      s'.mesh_ref.arrays "scalars" = s'.mesh_warped.arrays "scalars" ∧
      s'.mesh_ref.arrays "scalars"
        = some (flattenF (time_function s.xsA s.ysA (frame / 5))) := by
  refine ⟨_, update_3d_warp_eq frame s, ?_, ?_⟩ <;> simp [Mesh.append]

/-- C5: the callback has no validation and no error-handling branch — for
every frame value and every state it succeeds, along the one fixed
six-event path, whose shape does not depend on the frame. -/
theorem update_3d_warp_single_path (frame : ℝ) (s : NBState) :
    ∃ s', update_3d_warp frame s = some s' ∧
      s'.log = s.log ++ callbackTrace (frame / 5) ∧
      (callbackTrace (frame / 5)).length = 6 :=
  ⟨_, update_3d_warp_eq frame s, rfl, rfl⟩

/-- The states the notebook can be in: the state after setup, and anything
obtained from it by invoking the callback any number of times. -/
inductive Reachable : NBState → Prop
  | init : Reachable initState
  | step (frame : ℝ) {s s' : NBState} :
      Reachable s → update_3d_warp frame s = some s' → Reachable s'

/-- C4: the coordinate grid is fixed — in every reachable state the grid
arrays are still the meshgrid of the 101-sample axes computed at setup; no
invocation of the callback mutates them. -/
theorem grid_fixed_over_reachable_states (s : NBState) (h : Reachable s) :
    s.xsA = xs0 ∧ s.ysA = ys0 ∧ npts = 101 := by
  induction h with
  | init => exact ⟨rfl, rfl, rfl⟩
  | step frame hr hu ih =>
      rw [update_3d_warp_eq] at hu
      cases Option.some.inj hu
      exact ⟨ih.1, ih.2.1, rfl⟩

/-- Witness for C4 at the concrete state after setup. -/
theorem grid_fixed_over_reachable_states_witness :
    Reachable initState ∧
      (initState.xsA = xs0 ∧ initState.ysA = ys0 ∧ npts = 101) :=
  ⟨Reachable.init, grid_fixed_over_reachable_states initState Reachable.init⟩

/-- C8: for every frame value within the player's range 0..50, the callback
evaluates the field at time `frame/5`; the times covered lie between 0 and
10, and consecutive frames are 1/5 = 0.2 apart. -/
theorem frame_to_time_mapping (s : NBState) (v : ℕ)
    (hv : frame_player.startVal ≤ (v : ℤ) ∧ (v : ℤ) ≤ frame_player.endVal) :
    ∃ s', update_3d_warp (v : ℝ) s = some s' ∧
      s'.log = s.log ++ callbackTrace ((v : ℝ) / 5) ∧
      0 ≤ (v : ℝ) / 5 ∧ (v : ℝ) / 5 ≤ 10 ∧
      ((v : ℝ) + 1) / 5 = (v : ℝ) / 5 + 1 / 5 := by
  have h50 : (v : ℤ) ≤ 50 := hv.2
  have h50r : (v : ℝ) ≤ 50 := by exact_mod_cast h50
  refine ⟨_, update_3d_warp_eq _ s, rfl, by positivity, by linarith, by ring⟩

/-- Witness for C8 at frame value 5 from the state after setup. -/
theorem frame_to_time_mapping_witness :
    (frame_player.startVal ≤ ((5 : ℕ) : ℤ) ∧
        ((5 : ℕ) : ℤ) ≤ frame_player.endVal) ∧
      ∃ s', update_3d_warp (((5 : ℕ)) : ℝ) initState = some s' ∧
        s'.log = initState.log ++ callbackTrace ((((5 : ℕ)) : ℝ) / 5) ∧
        0 ≤ (((5 : ℕ)) : ℝ) / 5 ∧ (((5 : ℕ)) : ℝ) / 5 ≤ 10 ∧
        ((((5 : ℕ)) : ℝ) + 1) / 5 = (((5 : ℕ)) : ℝ) / 5 + 1 / 5 :=
  ⟨⟨by norm_num [frame_player], by norm_num [frame_player]⟩,
   frame_to_time_mapping initState 5
     ⟨by norm_num [frame_player], by norm_num [frame_player]⟩⟩

/-- The property claimed by C7's last clause: in a trace, the warp call
comes before every render event. -/
def warpBeforeAnyRender (tr : List Ev) : Prop :=
  ∀ i j : ℕ, tr[i]? = some (Ev.warpCall 1) →
    (∃ p, tr[j]? = some (Ev.render p)) → i < j

/-- C7 counterexample: the setup does NOT warp before all rendering — the
reference plotter is displayed (position 4 of the setup trace) before the
warp call that creates the warped mesh (position 5). -/
theorem warp_not_before_all_rendering : ¬ warpBeforeAnyRender setupTrace := by
  intro h
  have h54 := h 5 4 rfl ⟨PlotId.refPlot, rfl⟩
  omega

/-- C7 amended: the setup computes the field at time 0 (position 2), then
appends it to the reference mesh as `'scalars'` (position 3), and only then
warps (position 5), all before the warped surface is rendered (position 7);
however the reference plot has already been rendered at position 4, between
the append and the warp. -/
theorem setup_order_field_append_warp_render :
    setupTrace[2]? = some (Ev.evalField 0) ∧
    setupTrace[3]? = some (Ev.appendArray MeshId.refMesh "scalars") ∧
    setupTrace[5]? = some (Ev.warpCall 1) ∧
    setupTrace[7]? = some (Ev.render PlotId.warpPlot) ∧
    setupTrace[4]? = some (Ev.render PlotId.refPlot) :=
  ⟨rfl, rfl, rfl, rfl, rfl⟩

/-- At frame 0 the callback recomputes exactly the time-0 data. -/
lemma dataAt0 :
    flattenF (time_function initState.xsA initState.ysA ((0 : ℝ) / 5)) = data0 := by
  rw [zero_div]
  rfl

/-- The time-0 data at flat position 6438 (grid indices j = 75, i = 63,
coordinates y = 2, x = 1.04): `sin(((2/2)^2 + 0) * 1.04) = sin(26/25)`. -/
lemma data0_6438 : data0 6438 = Real.sin (26 / 25) := by
  show time_function xs0 ys0 0 (6438 % npts) (6438 / npts) = _
  norm_num [time_function, xs0, ys0, xvals, yvals, npts, alpha]

/-- `sin(26/25)` is strictly positive, since `0 < 26/25 < 3 < pi`. -/
lemma sin_2625_pos : 0 < Real.sin (26 / 25) :=
  Real.sin_pos_of_pos_of_lt_pi (by norm_num)
    (by linarith [Real.pi_gt_three])

/-- C3 counterexample: invoking the callback at frame 0 does NOT reproduce
the initially created warped mesh — at flat point 6438 the z coordinate
assigned by the callback (factor-0.5 warp) differs from the z coordinate
the warped mesh was created with (default factor-1 warp). -/
theorem update_frame0_differs_from_initial_warp :
    ¬ ∀ s', update_3d_warp 0 initState = some s' →
        (s'.mesh_warped.points 6438).2.2
          = (initState.mesh_warped.points 6438).2.2 := by
  intro h
  have he := h _ (update_3d_warp_eq 0 initState)
  rw [dataAt0, initState_mesh_warped] at he
  have hz : (mesh_ref_points 6438).2.2 + (1 / 2) * data0 6438
      = (mesh_ref_points 6438).2.2 + 1 * data0 6438 := he
  rw [data0_6438] at hz
  have hp := sin_2625_pos
  linarith

/-- C3 amended: at frame 0 the callback assigns points with the same x and
y coordinates as the initially created warped mesh, and with exactly half
its z displacement above the flat reference plane — the callback warps with
factor 0.5 while the mesh was created with pyvista's default factor 1. -/
theorem update_frame0_halves_initial_displacement :
    ∃ s', update_3d_warp 0 initState = some s' ∧
      ∀ k, (s'.mesh_warped.points k).1 = (initState.mesh_warped.points k).1 ∧
        (s'.mesh_warped.points k).2.1 = (initState.mesh_warped.points k).2.1 ∧
        (s'.mesh_warped.points k).2.2 - (mesh_ref_init.points k).2.2
          = (1 / 2) *
              ((initState.mesh_warped.points k).2.2
                - (mesh_ref_init.points k).2.2) := by
  refine ⟨_, update_3d_warp_eq 0 initState, fun k => ?_⟩
  rw [dataAt0, initState_mesh_warped]
  refine ⟨rfl, rfl, ?_⟩
  show (mesh_ref_points k).2.2 + (1 / 2) * data0 k - (mesh_ref_points k).2.2
      = (1 / 2) * ((mesh_ref_points k).2.2 + 1 * data0 k - (mesh_ref_points k).2.2)
  ring

end VTKWarp
